import Mathlib

/-!
Shallow embedding of `libraries/AP_HAL_PX4/Storage.cpp` (PX4Storage): a
4096-byte parameter-storage cache over the PX4 MTD device, with per-line
dirty tracking, a bounded periodic flush, and a one-shot migration from a
legacy microSD file, plus theorems settling the specification claims.

Machine integers are modelled as `Nat` with explicit truncation where the
C types make overflow/wraparound observable (`size_t` arithmetic in the
block-accessor guards, `uint16_t`/`uint8_t`/`uint32_t` in `_mark_dirty`).
Device and filesystem I/O is modelled by explicit environment records
(`OpenEnv`, `TickEnv`) carrying the outcome of each primitive call, and an
`OpenEffects` record of the externally visible actions taken.
-/

/-- Modelled from the spec (the `Storage.h` header is not under `src/`):
region size in bytes, `sizeof(_buffer)`; the spec fixes the region at
4096 bytes. -/
def PX4_STORAGE_SIZE : Nat := 4096

/-- Modelled from the spec (the `Storage.h` header is not under `src/`):
line size in bytes; the spec fixes lines at 128 bytes. -/
def PX4_STORAGE_LINE_SIZE : Nat := 128

/-- Modelled from the spec (the `Storage.h` header is not under `src/`):
log2 of the line size, used as a shift count in the source. -/
def PX4_STORAGE_LINE_SHIFT : Nat := 7

/-- Modelled from the spec (the `Storage.h` header is not under `src/`):
line count = region size / line size = 32, which exactly fits the
`uint32_t` dirty-mask width as the spec requires. -/
def PX4_STORAGE_NUM_LINES : Nat := 32

/-- Modelled from the spec (the `Storage.h` header is not under `src/`):
the maximum bytes-per-invocation cap of the flush driver (a multiple of
the line size; 512 bytes = 4 lines on this platform). -/
def PX4_STORAGE_MAX_WRITE : Nat := 512

/-- `MTD_SIGNATURE 0x14012014` from the source. -/
def MTD_SIGNATURE : Nat := 0x14012014

/-- `MTD_SIGNATURE_OFFSET (8192-4)` from the source. -/
def MTD_SIGNATURE_OFFSET : Nat := 8192 - 4

/-- Modulus of the C `size_t` type (64-bit platform arithmetic). -/
def SIZE_T_MOD : Nat := 2 ^ 64

/-- Wrapping `size_t` subtraction `a - b` (as in
`sizeof(_buffer)-(n-1)`), for `a b < SIZE_T_MOD`. -/
def sizeT_sub (a b : Nat) : Nat := (a + SIZE_T_MOD - b % SIZE_T_MOD) % SIZE_T_MOD

/-- All-ones mask of the `uint32_t` width, used to model the C bitwise
complement `~write_mask` on a `uint32_t`. -/
def UINT32_MASK : Nat := 2 ^ 32 - 1

/-- State of the `PX4Storage` object.  `fdOpen` models `_fd != -1`;
`buffer` models the process memory seen through `_buffer` (indices below
`PX4_STORAGE_SIZE` are the region, larger indices are the adjacent memory
that out-of-bounds `memcpy`/`memcmp` would touch); `errors` models the
`_perf_errors` counter (number of `perf_count(_perf_errors)` calls). -/
structure StorageState where
  fdOpen : Bool
  dirty_mask : Nat
  buffer : Nat → Nat
  initialised : Bool
  errors : Nat

/-- Modelled from the spec (the `Storage.h` member declarations are not
under `src/`): the initial state of the storage singleton — descriptor
closed (`_fd(-1)`) and empty dirty mask from the constructor, remaining
members zero-initialised as the global object of a process. -/
def PX4Storage_init : StorageState :=
  { fdOpen := false, dirty_mask := 0, buffer := fun _ => 0,
    initialised := false, errors := 0 }

/-- Outcomes of the filesystem/device primitives consulted by
`_storage_open` and its callees, one field per call site. -/
structure OpenEnv where
  /-- `stat(MTD_PARAMS_FILE, &st) == 0`. -/
  mtdExists : Bool
  /-- `open(MTD_PARAMS_FILE, O_RDONLY)` in `_mtd_signature` succeeds. -/
  sigOpenOk : Bool
  /-- `lseek` to `MTD_SIGNATURE_OFFSET` in `_mtd_signature` succeeds. -/
  sigSeekOk : Bool
  /-- `read` of the 4 signature bytes in `_mtd_signature` succeeds. -/
  sigReadOk : Bool
  /-- the `uint32_t` signature value read by `_mtd_signature`. -/
  mtdSig : Nat
  /-- `open(MTD_PARAMS_FILE, O_WRONLY)` in `_mtd_write_signature` succeeds. -/
  sigWOpenOk : Bool
  /-- `lseek` in `_mtd_write_signature` succeeds. -/
  sigWSeekOk : Bool
  /-- `write` of the signature in `_mtd_write_signature` succeeds. -/
  sigWriteOk : Bool
  /-- `stat(OLD_STORAGE_FILE, &st) == 0`. -/
  oldExists : Bool
  /-- `open(OLD_STORAGE_FILE, O_RDONLY)` in `_upgrade_to_mtd` succeeds. -/
  oldOpenOk : Bool
  /-- byte count returned by `read(old_fd, _buffer, sizeof(_buffer))`. -/
  oldReadLen : Nat
  /-- bytes of the legacy store file. -/
  oldContent : Nat → Nat
  /-- `open(MTD_PARAMS_FILE, O_WRONLY)` in `_upgrade_to_mtd` succeeds. -/
  mtdWOpenOk : Bool
  /-- `write(mtd_fd, _buffer, sizeof(_buffer))` in `_upgrade_to_mtd` succeeds. -/
  mtdWriteOk : Bool
  /-- final `open(MTD_PARAMS_FILE, O_RDONLY)` in `_storage_open` succeeds. -/
  finalOpenOk : Bool
  /-- byte count returned by the final full-region `read` in `_storage_open`. -/
  finalReadLen : Nat
  /-- region bytes of the MTD device as read by `_storage_open`. -/
  mtdContent : Nat → Nat

/-- Externally visible actions taken during `_storage_open`:
`panicked` records a non-returning `hal.scheduler->panic`; `sigWritten`
that `_mtd_write_signature` wrote the signature; `upgradeWritten` that
`_upgrade_to_mtd` copied the legacy bytes into the MTD; the `diag*`
fields record the three `printf` diagnostics. -/
structure OpenEffects where
  panicked : Bool
  sigWritten : Bool
  upgradeWritten : Bool
  diagOldOpenFail : Bool
  diagOldReadFail : Bool
  diagUpgraded : Bool
deriving DecidableEq

/-- No externally visible action. -/
def noEffects : OpenEffects :=
  { panicked := false, sigWritten := false, upgradeWritten := false,
    diagOldOpenFail := false, diagOldReadFail := false, diagUpgraded := false }

/-- Overwrite `src.length` bytes of `buf` starting at `loc`
(`memcpy(&_buffer[loc], src, n)`). -/
def memcpyBuf (buf : Nat → Nat) (loc : Nat) (src : List Nat) : Nat → Nat :=
  fun a => if loc ≤ a ∧ a < loc + src.length then src.getD (a - loc) 0 else buf a

/-- Boolean outcome of `memcmp(src, &_buffer[loc], n) != 0`. -/
def memcmpNe (src : List Nat) (buf : Nat → Nat) (loc : Nat) : Bool :=
  (List.range src.length).any (fun k => src.getD k 0 != buf (loc + k))

/-- `PX4Storage::_upgrade_to_mtd`.  A short legacy read still deposits the
bytes it did read into `_buffer` before the early return; a failed legacy
open or short read is a diagnostic-only return, while a failed MTD open or
MTD write is a panic. -/
def _upgrade_to_mtd (env : OpenEnv) (s : StorageState) : StorageState × OpenEffects :=
  if ¬env.oldOpenOk then
    (s, { noEffects with diagOldOpenFail := true })
  else if ¬env.mtdWOpenOk then
    (s, { noEffects with panicked := true })
  else if env.oldReadLen ≠ PX4_STORAGE_SIZE then
    ({ s with buffer := fun a =>
        if a < min env.oldReadLen PX4_STORAGE_SIZE then env.oldContent a else s.buffer a },
     { noEffects with diagOldReadFail := true })
  else
    let s1 := { s with buffer := fun a =>
        if a < PX4_STORAGE_SIZE then env.oldContent a else s.buffer a }
    if ¬env.mtdWriteOk then
      (s1, { noEffects with panicked := true })
    else
      (s1, { noEffects with upgradeWritten := true, diagUpgraded := true })

/-- `PX4Storage::_storage_open`: idempotence guard, MTD presence check,
signature probe, optional one-shot migration, unconditional signature
write when the signature was wrong, dirty-mask reset, and full-region
load.  Every `hal.scheduler->panic` is modelled as an early return with
`panicked := true` (the process does not continue past it). -/
def _storage_open (env : OpenEnv) (s : StorageState) : StorageState × OpenEffects :=
  if s.initialised then (s, noEffects)
  else if ¬env.mtdExists then (s, { noEffects with panicked := true })
  else if ¬(env.sigOpenOk ∧ env.sigSeekOk ∧ env.sigReadOk) then
    (s, { noEffects with panicked := true })
  else
    let good := env.mtdSig = MTD_SIGNATURE
    let p1 := if env.oldExists ∧ ¬good then _upgrade_to_mtd env s else (s, noEffects)
    if p1.2.panicked then p1
    else if ¬good ∧ ¬(env.sigWOpenOk ∧ env.sigWSeekOk ∧ env.sigWriteOk) then
      (p1.1, { p1.2 with panicked := true })
    else
      let eff2 := if good then p1.2 else { p1.2 with sigWritten := true }
      let s2 := { p1.1 with dirty_mask := 0 }
      if ¬env.finalOpenOk then (s2, { eff2 with panicked := true })
      else if env.finalReadLen ≠ PX4_STORAGE_SIZE then (s2, { eff2 with panicked := true })
      else
        ({ s2 with
            buffer := fun a => if a < PX4_STORAGE_SIZE then env.mtdContent a else s2.buffer a,
            initialised := true },
         eff2)

/-- Loop body of `PX4Storage::_mark_dirty`, fuel-indexed: while
`loc < end`, set bit `(uint8_t)(loc >> PX4_STORAGE_LINE_SHIFT)` in the
`uint32_t` mask and advance `loc` by one line (`uint16_t` wraparound). -/
def markDirtyLoop (endv : Nat) : Nat → Nat → Nat → Nat
  | 0, _, mask => mask
  | fuel + 1, loc, mask =>
    if loc < endv then
      markDirtyLoop endv fuel ((loc + PX4_STORAGE_LINE_SIZE) % 65536)
        ((mask ||| (1 <<< ((loc >>> PX4_STORAGE_LINE_SHIFT) % 256))) % 2 ^ 32)
    else mask

/-- `PX4Storage::_mark_dirty` as a function of the current mask:
`end = loc + length` in `uint16_t` arithmetic, then the line-marking
loop (512 iterations of fuel suffice for every terminating run of the C
loop, whose step is one line over a 16-bit index). -/
def _mark_dirty (mask loc length : Nat) : Nat :=
  markDirtyLoop ((loc + length) % 65536) 512 (loc % 65536) mask

/-- `PX4Storage::read_byte`.  Returns the state after the call, the
effects of any lazy open, and the `uint8_t` result. -/
def read_byte (env : OpenEnv) (s : StorageState) (loc : Nat) :
    StorageState × OpenEffects × Nat :=
  if loc ≥ PX4_STORAGE_SIZE then (s, noEffects, 0)
  else
    let p := _storage_open env s
    (p.1, p.2, p.1.buffer loc)

/-- `PX4Storage::read_word` (little-endian `memcpy` of 2 bytes). -/
def read_word (env : OpenEnv) (s : StorageState) (loc : Nat) :
    StorageState × OpenEffects × Nat :=
  if loc ≥ PX4_STORAGE_SIZE - (2 - 1) then (s, noEffects, 0)
  else
    let p := _storage_open env s
    (p.1, p.2, p.1.buffer loc + 256 * p.1.buffer (loc + 1))

/-- `PX4Storage::read_dword` (little-endian `memcpy` of 4 bytes). -/
def read_dword (env : OpenEnv) (s : StorageState) (loc : Nat) :
    StorageState × OpenEffects × Nat :=
  if loc ≥ PX4_STORAGE_SIZE - (4 - 1) then (s, noEffects, 0)
  else
    let p := _storage_open env s
    (p.1, p.2, p.1.buffer loc + 256 * p.1.buffer (loc + 1) +
      65536 * p.1.buffer (loc + 2) + 16777216 * p.1.buffer (loc + 3))

/-- `PX4Storage::read_block`.  `dst` is the destination buffer (a list of
its bytes); the guard `loc >= sizeof(_buffer)-(n-1)` is `size_t`
arithmetic; on the early return `dst` is untouched, otherwise its first
`n` bytes are replaced by the region bytes at `loc`. -/
def read_block (env : OpenEnv) (s : StorageState) (dst : List Nat) (loc n : Nat) :
    StorageState × OpenEffects × List Nat :=
  if loc ≥ sizeT_sub PX4_STORAGE_SIZE (sizeT_sub n 1) then (s, noEffects, dst)
  else
    let p := _storage_open env s
    (p.1, p.2, (List.range n).map (fun k => p.1.buffer (loc + k)) ++ dst.drop n)

/-- `PX4Storage::write_byte`: bounds guard, compare against the current
buffer byte, then (only when different) lazy open, store, and
`_mark_dirty(loc, 1)`. -/
def write_byte (env : OpenEnv) (s : StorageState) (loc value : Nat) :
    StorageState × OpenEffects :=
  if loc ≥ PX4_STORAGE_SIZE then (s, noEffects)
  else if s.buffer loc ≠ value % 256 then
    let p := _storage_open env s
    if p.2.panicked then p
    else
      let s2 := { p.1 with buffer := fun a => if a = loc then value % 256 else p.1.buffer a }
      ({ s2 with dirty_mask := _mark_dirty s2.dirty_mask loc 1 }, p.2)
  else (s, noEffects)

/-- Little-endian byte list of a `uint16_t` value. -/
def wordBytes (v : Nat) : List Nat := [v % 256, v / 256 % 256]

/-- Little-endian byte list of a `uint32_t` value. -/
def dwordBytes (v : Nat) : List Nat :=
  [v % 256, v / 256 % 256, v / 65536 % 256, v / 16777216 % 256]

/-- `PX4Storage::write_word`. -/
def write_word (env : OpenEnv) (s : StorageState) (loc value : Nat) :
    StorageState × OpenEffects :=
  if loc ≥ PX4_STORAGE_SIZE - (2 - 1) then (s, noEffects)
  else if memcmpNe (wordBytes value) s.buffer loc then
    let p := _storage_open env s
    if p.2.panicked then p
    else
      let s2 := { p.1 with buffer := memcpyBuf p.1.buffer loc (wordBytes value) }
      ({ s2 with dirty_mask := _mark_dirty s2.dirty_mask loc 2 }, p.2)
  else (s, noEffects)

/-- `PX4Storage::write_dword`. -/
def write_dword (env : OpenEnv) (s : StorageState) (loc value : Nat) :
    StorageState × OpenEffects :=
  if loc ≥ PX4_STORAGE_SIZE - (4 - 1) then (s, noEffects)
  else if memcmpNe (dwordBytes value) s.buffer loc then
    let p := _storage_open env s
    if p.2.panicked then p
    else
      let s2 := { p.1 with buffer := memcpyBuf p.1.buffer loc (dwordBytes value) }
      ({ s2 with dirty_mask := _mark_dirty s2.dirty_mask loc 4 }, p.2)
  else (s, noEffects)

/-- `PX4Storage::write_block`.  `src` is the source byte list, `n` its
length; the guard is `size_t` arithmetic; `_mark_dirty` receives `n`
truncated to `uint16_t` as by the C implicit conversion. -/
def write_block (env : OpenEnv) (s : StorageState) (loc : Nat) (src : List Nat) :
    StorageState × OpenEffects :=
  if loc ≥ sizeT_sub PX4_STORAGE_SIZE (sizeT_sub src.length 1) then (s, noEffects)
  else if memcmpNe src s.buffer loc then
    let p := _storage_open env s
    if p.2.panicked then p
    else
      let s2 := { p.1 with buffer := memcpyBuf p.1.buffer loc src }
      ({ s2 with dirty_mask := _mark_dirty s2.dirty_mask loc (src.length % 65536) }, p.2)
  else (s, noEffects)

/-- Outcomes of the device primitives consulted by `_timer_tick`. -/
structure TickEnv where
  /-- `open(MTD_PARAMS_FILE, O_WRONLY)` succeeds when `_fd == -1`. -/
  openOk : Bool
  /-- `lseek(_fd, i<<SHIFT, SEEK_SET)` returns the requested offset. -/
  seekOk : Bool
  /-- `write(_fd, ..., n<<SHIFT)` returns `n<<SHIFT`. -/
  writeOk : Bool
  /-- `fsync(_fd)` returns 0. -/
  fsyncOk : Bool

/-- Device actions of one `_timer_tick` invocation: `wrote` is
`some (offset, count)` when the line-run write call succeeded in full,
`synced` records that `fsync` was invoked. -/
structure TickResult where
  wrote : Option (Nat × Nat)
  synced : Bool
deriving DecidableEq

/-- Scan loop `for (i=0; i<PX4_STORAGE_NUM_LINES; i++) if (mask & (1<<i)) break;`
fuel-indexed from `i`; exhausted fuel leaves `i` at the loop bound. -/
def findFirstSet (mask : Nat) : Nat → Nat → Nat
  | i, 0 => i
  | i, fuel + 1 => if mask.testBit i then i else findFirstSet mask (i + 1) fuel

/-- Run-extension loop of `_timer_tick`:
`for (n=1; (i+n) < NUM_LINES && n < (MAX_WRITE>>SHIFT); n++)` breaking at
the first clear bit, accumulating `write_mask`; returns the final
`(n, write_mask)`. -/
def runLoop (mask i : Nat) : Nat → Nat → Nat → Nat × Nat
  | 0, n, wm => (n, wm)
  | fuel + 1, n, wm =>
    if i + n < PX4_STORAGE_NUM_LINES ∧ n < PX4_STORAGE_MAX_WRITE >>> PX4_STORAGE_LINE_SHIFT then
      if mask.testBit (n + i) then
        runLoop mask i fuel (n + 1) (wm ||| (1 <<< (n + i)))
      else (n, wm)
    else (n, wm)

/-- Index of the first dirty line found by the scan loop of `_timer_tick`. -/
def ffsOf (mask : Nat) : Nat := findFirstSet mask 0 PX4_STORAGE_NUM_LINES

/-- Final `(n, write_mask)` of the run-extension loop of `_timer_tick`,
from its initial state `n = 1`, `write_mask = 1 << i`. -/
def runOf (mask : Nat) : Nat × Nat :=
  runLoop mask (ffsOf mask) PX4_STORAGE_NUM_LINES 1 (1 <<< ffsOf mask)

/-- Body of `_timer_tick` after the descriptor is known open: first-dirty
scan, run extension, seek, optimistic clear, write with rollback on
failure, and conditional `fsync` when the mask reached zero. -/
def _timer_tick_opened (env : TickEnv) (s : StorageState) : StorageState × TickResult :=
  let i := ffsOf s.dirty_mask
  if i = PX4_STORAGE_NUM_LINES then
    ({ s with errors := s.errors + 1 }, ⟨none, false⟩)
  else
    let p := runOf s.dirty_mask
    if env.seekOk then
      let sA := { s with dirty_mask := s.dirty_mask &&& (UINT32_MASK ^^^ p.2) }
      let sB := if env.writeOk then sA
                else { sA with
                       dirty_mask := (sA.dirty_mask ||| p.2),
                       fdOpen := false, errors := sA.errors + 1 }
      let wrote := if env.writeOk then
                     some (i <<< PX4_STORAGE_LINE_SHIFT, p.1 <<< PX4_STORAGE_LINE_SHIFT)
                   else none
      if sB.dirty_mask = 0 then
        if env.fsyncOk then (sB, ⟨wrote, true⟩)
        else ({ sB with fdOpen := false, errors := sB.errors + 1 }, ⟨wrote, true⟩)
      else (sB, ⟨wrote, false⟩)
    else (s, ⟨none, false⟩)

/-- `PX4Storage::_timer_tick`: early return when uninitialised or clean,
lazy open of the write descriptor (error-counted abort on failure), then
the flush body. -/
def _timer_tick (env : TickEnv) (s : StorageState) : StorageState × TickResult :=
  if s.initialised = false ∨ s.dirty_mask = 0 then (s, ⟨none, false⟩)
  else if s.fdOpen then _timer_tick_opened env s
  else if env.openOk then _timer_tick_opened env { s with fdOpen := true }
  else ({ s with errors := s.errors + 1 }, ⟨none, false⟩)

/-- An `OpenEnv` whose every primitive fails; usable wherever the open
path is not reached. -/
def trivOpenEnv : OpenEnv :=
  { mtdExists := false, sigOpenOk := false, sigSeekOk := false, sigReadOk := false,
    mtdSig := 0, sigWOpenOk := false, sigWSeekOk := false, sigWriteOk := false,
    oldExists := false, oldOpenOk := false, oldReadLen := 0, oldContent := fun _ => 0,
    mtdWOpenOk := false, mtdWriteOk := false, finalOpenOk := false, finalReadLen := 0,
    mtdContent := fun _ => 0 }

/-- A healthy `OpenEnv`: MTD present with a good signature, no legacy
file, full-region read succeeding, region bytes all 7. -/
def okOpenEnv : OpenEnv :=
  { mtdExists := true, sigOpenOk := true, sigSeekOk := true, sigReadOk := true,
    mtdSig := MTD_SIGNATURE, sigWOpenOk := true, sigWSeekOk := true, sigWriteOk := true,
    oldExists := false, oldOpenOk := false, oldReadLen := 0, oldContent := fun _ => 0,
    mtdWOpenOk := false, mtdWriteOk := false, finalOpenOk := true,
    finalReadLen := PX4_STORAGE_SIZE, mtdContent := fun _ => 7 }

/-- An `OpenEnv` with a wrong signature and a legacy store whose full read
returns only 100 bytes (a short read), everything else healthy. -/
def shortLegacyEnv : OpenEnv :=
  { mtdExists := true, sigOpenOk := true, sigSeekOk := true, sigReadOk := true,
    mtdSig := 0, sigWOpenOk := true, sigWSeekOk := true, sigWriteOk := true,
    oldExists := true, oldOpenOk := true, oldReadLen := 100, oldContent := fun _ => 9,
    mtdWOpenOk := true, mtdWriteOk := true, finalOpenOk := true,
    finalReadLen := PX4_STORAGE_SIZE, mtdContent := fun _ => 0 }

/-- An initialised state with a clean mask and an all-zero region. -/
def initialisedZero : StorageState :=
  { fdOpen := false, dirty_mask := 0, buffer := fun _ => 0,
    initialised := true, errors := 0 }

/-- An initialised state, descriptor open, lines 0 and 5 dirty. -/
def dirty05 : StorageState :=
  { fdOpen := true, dirty_mask := 33, buffer := fun _ => 0,
    initialised := true, errors := 0 }

/-- An initialised state, descriptor open, lines 1 and 2 dirty. -/
def dirty12 : StorageState :=
  { fdOpen := true, dirty_mask := 6, buffer := fun _ => 0,
    initialised := true, errors := 0 }

/-- An initialised state, descriptor open, lines 0 through 5 dirty
(six contiguous lines, exceeding the per-invocation cap of four). -/
def dirty0to5 : StorageState :=
  { fdOpen := true, dirty_mask := 63, buffer := fun _ => 0,
    initialised := true, errors := 0 }

/-- A `TickEnv` in which every device primitive succeeds. -/
def tickAllOk : TickEnv :=
  { openOk := true, seekOk := true, writeOk := true, fsyncOk := true }

/-- A `TickEnv` in which the line-run `write` fails and everything else
succeeds. -/
def tickWriteFail : TickEnv :=
  { openOk := true, seekOk := true, writeOk := false, fsyncOk := true }

/-- A `TickEnv` in which the `lseek` fails and everything else succeeds. -/
def tickSeekFail : TickEnv :=
  { openOk := true, seekOk := false, writeOk := true, fsyncOk := true }

set_option maxRecDepth 40000

theorem findFirstSet_ge (mask : Nat) :
    ∀ fuel i, i ≤ findFirstSet mask i fuel := by
  intro fuel
  induction fuel with
  | zero => intro i; simp [findFirstSet]
  | succ fuel ih =>
    intro i
    simp only [findFirstSet]
    split
    · exact Nat.le_refl i
    · exact Nat.le_trans (Nat.le_succ i) (ih (i + 1))

theorem findFirstSet_le (mask : Nat) :
    ∀ fuel i, findFirstSet mask i fuel ≤ i + fuel := by
  intro fuel
  induction fuel with
  | zero => intro i; simp [findFirstSet]
  | succ fuel ih =>
    intro i
    simp only [findFirstSet]
    split
    · omega
    · have := ih (i + 1)
      omega

theorem findFirstSet_min (mask : Nat) :
    ∀ fuel i j, i ≤ j → j < findFirstSet mask i fuel → mask.testBit j = false := by
  intro fuel
  induction fuel with
  | zero =>
    intro i j hij hj
    simp [findFirstSet] at hj
    omega
  | succ fuel ih =>
    intro i j hij hj
    simp only [findFirstSet] at hj
    by_cases hb : mask.testBit i
    · rw [if_pos hb] at hj; omega
    · rw [if_neg hb] at hj
      rcases Nat.eq_or_lt_of_le hij with h | h
      · subst h; exact Bool.eq_false_iff.mpr hb
      · exact ih (i + 1) j h hj

theorem findFirstSet_found (mask : Nat) :
    ∀ fuel i, findFirstSet mask i fuel < i + fuel →
      mask.testBit (findFirstSet mask i fuel) = true := by
  intro fuel
  induction fuel with
  | zero => intro i h; simp [findFirstSet] at h
  | succ fuel ih =>
    intro i h
    simp only [findFirstSet] at h ⊢
    by_cases hb : mask.testBit i
    · rw [if_pos hb]; exact hb
    · rw [if_neg hb] at h ⊢
      exact ih (i + 1) (by omega)

theorem exists_testBit_of_ne_zero {mask : Nat} (h : mask ≠ 0) :
    ∃ j, mask.testBit j = true := by
  by_contra hc
  push_neg at hc
  exact h (Nat.eq_of_testBit_eq (fun i => by
    simp [Nat.zero_testBit]
    exact Bool.eq_false_iff.mpr (fun ht => hc i ht)))

theorem testBit_false_of_lt_pow {mask j : Nat} (hlt : mask < 2 ^ 32) (hj : 32 ≤ j) :
    mask.testBit j = false :=
  Nat.testBit_lt_two_pow (Nat.lt_of_lt_of_le hlt (Nat.pow_le_pow_right (by norm_num) hj))

theorem findFirstSet_lt_32 {mask : Nat} (h : mask ≠ 0) (hlt : mask < 2 ^ 32) :
    findFirstSet mask 0 PX4_STORAGE_NUM_LINES < PX4_STORAGE_NUM_LINES := by
  obtain ⟨j, hj⟩ := exists_testBit_of_ne_zero h
  have hj32 : j < 32 := by
    by_contra hc
    rw [testBit_false_of_lt_pow hlt (by omega)] at hj
    exact Bool.false_ne_true hj
  by_contra hc
  have h32 : (32 : Nat) ≤ findFirstSet mask 0 PX4_STORAGE_NUM_LINES := by
    simpa [PX4_STORAGE_NUM_LINES] using hc
  have hmin := findFirstSet_min mask PX4_STORAGE_NUM_LINES 0 j (Nat.zero_le j) (by omega)
  rw [hmin] at hj
  exact Bool.false_ne_true hj

theorem runLoop_spec (mask i : Nat) :
    ∀ fuel n wm, 1 ≤ n → n ≤ PX4_STORAGE_MAX_WRITE >>> PX4_STORAGE_LINE_SHIFT →
      i + n ≤ PX4_STORAGE_NUM_LINES →
      (∀ k, wm.testBit k = true ↔ (i ≤ k ∧ k < i + n)) →
      (∀ k, i ≤ k → k < i + n → mask.testBit k = true) →
      1 ≤ (runLoop mask i fuel n wm).1 ∧
      (runLoop mask i fuel n wm).1 ≤ PX4_STORAGE_MAX_WRITE >>> PX4_STORAGE_LINE_SHIFT ∧
      i + (runLoop mask i fuel n wm).1 ≤ PX4_STORAGE_NUM_LINES ∧
      (∀ k, (runLoop mask i fuel n wm).2.testBit k = true ↔
        (i ≤ k ∧ k < i + (runLoop mask i fuel n wm).1)) ∧
      (∀ k, i ≤ k → k < i + (runLoop mask i fuel n wm).1 → mask.testBit k = true) := by
  intro fuel
  induction fuel with
  | zero =>
    intro n wm h1 h2 h3 h4 h5
    exact ⟨h1, h2, h3, h4, h5⟩
  | succ fuel ih =>
    intro n wm h1 h2 h3 h4 h5
    simp only [runLoop]
    by_cases hc : i + n < PX4_STORAGE_NUM_LINES ∧
        n < PX4_STORAGE_MAX_WRITE >>> PX4_STORAGE_LINE_SHIFT
    · rw [if_pos hc]
      by_cases hb : mask.testBit (n + i)
      · rw [if_pos hb]
        refine ih (n + 1) (wm ||| (1 <<< (n + i))) (by omega) (by omega) (by omega) ?_ ?_
        · intro k
          rw [Nat.testBit_lor, Nat.one_shiftLeft, Nat.testBit_two_pow]
          rw [Bool.or_eq_true, h4 k, decide_eq_true_eq]
          omega
        · intro k hk1 hk2
          by_cases hk : k = n + i
          · rw [hk]; exact hb
          · exact h5 k hk1 (by omega)
      · rw [if_neg hb]
        exact ⟨h1, h2, h3, h4, h5⟩
    · rw [if_neg hc]
      exact ⟨h1, h2, h3, h4, h5⟩

/-- Properties of the selected run in `_timer_tick_opened`, instantiated
at the initial loop state `n = 1`, `write_mask = 1 <<< i`. -/
theorem run_of_tick {mask : Nat} (hmask : mask ≠ 0) (hlt : mask < 2 ^ 32) :
    1 ≤ (runOf mask).1 ∧
    (runOf mask).1 ≤ PX4_STORAGE_MAX_WRITE >>> PX4_STORAGE_LINE_SHIFT ∧
    ffsOf mask + (runOf mask).1 ≤ PX4_STORAGE_NUM_LINES ∧
    (∀ k, (runOf mask).2.testBit k = true ↔
      (ffsOf mask ≤ k ∧ k < ffsOf mask + (runOf mask).1)) ∧
    (∀ k, ffsOf mask ≤ k → k < ffsOf mask + (runOf mask).1 → mask.testBit k = true) := by
  have hi : ffsOf mask < PX4_STORAGE_NUM_LINES := findFirstSet_lt_32 hmask hlt
  have hbit : mask.testBit (ffsOf mask) = true :=
    findFirstSet_found mask PX4_STORAGE_NUM_LINES 0 (by
      simpa [ffsOf] using hi)
  refine runLoop_spec mask _ PX4_STORAGE_NUM_LINES 1 (1 <<< _) (le_refl 1)
    (by simp [PX4_STORAGE_MAX_WRITE, PX4_STORAGE_LINE_SHIFT]) ?_ ?_ ?_
  · simp only [PX4_STORAGE_NUM_LINES] at hi ⊢; omega
  · intro k
    rw [Nat.one_shiftLeft, Nat.testBit_two_pow, decide_eq_true_eq]
    omega
  · intro k hk1 hk2
    have hki : k = ffsOf mask := by omega
    rw [hki]; exact hbit

/-- Bitwise view of the optimistic clear `_dirty_mask &= ~write_mask` on a
`uint32_t` mask whose set bits lie below 32. -/
theorem testBit_clear (mask wm : Nat) (hm : mask < 2 ^ 32) (k : Nat) :
    (mask &&& (UINT32_MASK ^^^ wm)).testBit k = (mask.testBit k && !wm.testBit k) := by
  rw [Nat.testBit_land, Nat.testBit_xor]
  have hM : UINT32_MASK = 2 ^ 32 - 1 := rfl
  rw [hM, Nat.testBit_two_pow_sub_one]
  by_cases hk : k < 32
  · simp [hk]
  · rw [testBit_false_of_lt_pow hm (by omega)]
    simp [hk]

/-- Restoring the optimistically cleared bits recovers the mask exactly,
when every `write_mask` bit was set in the mask. -/
theorem clear_then_restore (mask wm : Nat) (hm : mask < 2 ^ 32)
    (hsub : ∀ k, wm.testBit k = true → mask.testBit k = true) :
    ((mask &&& (UINT32_MASK ^^^ wm)) ||| wm) = mask := by
  apply Nat.eq_of_testBit_eq
  intro k
  rw [Nat.testBit_lor, testBit_clear mask wm hm]
  by_cases hw : wm.testBit k = true
  · rw [hw, hsub k hw]; simp
  · rw [Bool.eq_false_iff.mpr hw]; simp

/-- The restored mask is nonzero as soon as one `write_mask` bit is set. -/
theorem restore_ne_zero (mask wm i : Nat) (hbit : wm.testBit i = true) :
    ((mask &&& (UINT32_MASK ^^^ wm)) ||| wm) ≠ 0 := by
  intro h0
  have : ((mask &&& (UINT32_MASK ^^^ wm)) ||| wm).testBit i = true := by
    rw [Nat.testBit_lor, hbit]; simp
  rw [h0, Nat.zero_testBit] at this
  exact Bool.false_ne_true this

/-- With the storage initialised, dirty, and the descriptor open,
`_timer_tick` runs its flush body directly. -/
theorem timer_tick_eq_opened (env : TickEnv) (s : StorageState)
    (hinit : s.initialised = true) (hmask : s.dirty_mask ≠ 0) (hfd : s.fdOpen = true) :
    _timer_tick env s = _timer_tick_opened env s := by
  simp [_timer_tick, hinit, hmask, hfd]

/-- C10: with the storage initialised and dirty, the descriptor already
open, and the seek to the selected run's byte offset failing, the flush
invocation returns with the state completely unchanged (no dirty bit
cleared, no bytes written, descriptor still open, error counter not
incremented), so the same run is retried at the next period. -/
theorem c10_seek_failure (env : TickEnv) (s : StorageState)
    (hinit : s.initialised = true) (hmask : s.dirty_mask ≠ 0)
    (hlt : s.dirty_mask < 2 ^ 32) (hfd : s.fdOpen = true)
    (hseek : env.seekOk = false) :
    _timer_tick env s = (s, ⟨none, false⟩) := by
  rw [timer_tick_eq_opened env s hinit hmask hfd]
  have hi : ffsOf s.dirty_mask < PX4_STORAGE_NUM_LINES := findFirstSet_lt_32 hmask hlt
  simp only [_timer_tick_opened]
  rw [if_neg (by omega : ¬ ffsOf s.dirty_mask = PX4_STORAGE_NUM_LINES)]
  simp [hseek]

/-- C10 witness: concrete invocation of `c10_seek_failure` on the state
with lines 0 and 5 dirty. -/
theorem c10_seek_failure_witness :
    _timer_tick tickSeekFail dirty05 = (dirty05, ⟨none, false⟩) :=
  c10_seek_failure tickSeekFail dirty05 (by decide) (by decide) (by decide)
    (by decide) (by decide)

/-- C7: if the device write fails during a flush invocation (seek having
succeeded), the optimistically cleared dirty bits are all restored — the
mask after the invocation equals the mask before it, so no dirty update
is lost — the backing descriptor is closed and invalidated, and the error
counter is incremented; nothing was recorded as written. -/
theorem c7_write_failure (env : TickEnv) (s : StorageState)
    (hinit : s.initialised = true) (hmask : s.dirty_mask ≠ 0)
    (hlt : s.dirty_mask < 2 ^ 32) (hfd : s.fdOpen = true)
    (hseek : env.seekOk = true) (hwrite : env.writeOk = false) :
    (_timer_tick env s).1.dirty_mask = s.dirty_mask ∧
    (_timer_tick env s).1.fdOpen = false ∧
    (_timer_tick env s).1.errors = s.errors + 1 ∧
    (_timer_tick env s).1.buffer = s.buffer ∧
    (_timer_tick env s).2.wrote = none := by
  obtain ⟨hn1, hncap, hn32, hwmbits, hmaskbits⟩ := run_of_tick hmask hlt
  have hi : ffsOf s.dirty_mask < PX4_STORAGE_NUM_LINES := findFirstSet_lt_32 hmask hlt
  have hbi : (runOf s.dirty_mask).2.testBit (ffsOf s.dirty_mask) = true :=
    (hwmbits (ffsOf s.dirty_mask)).mpr (by omega)
  have hrestore :
      ((s.dirty_mask &&& (UINT32_MASK ^^^ (runOf s.dirty_mask).2)) |||
        (runOf s.dirty_mask).2) = s.dirty_mask :=
    clear_then_restore s.dirty_mask (runOf s.dirty_mask).2 hlt
      (fun k hk => hmaskbits k ((hwmbits k).mp hk).1 ((hwmbits k).mp hk).2)
  have hnz := restore_ne_zero s.dirty_mask (runOf s.dirty_mask).2 (ffsOf s.dirty_mask) hbi
  rw [timer_tick_eq_opened env s hinit hmask hfd]
  simp only [_timer_tick_opened]
  rw [if_neg (by omega : ¬ ffsOf s.dirty_mask = PX4_STORAGE_NUM_LINES)]
  rw [if_pos hseek]
  simp only [hwrite, Bool.false_eq_true, if_false]
  rw [if_neg hnz]
  exact ⟨hrestore, rfl, rfl, rfl, rfl⟩

/-- C7 witness: concrete invocation of `c7_write_failure` on the state
with lines 0 and 5 dirty and a failing device write. -/
theorem c7_write_failure_witness :
    (_timer_tick tickWriteFail dirty05).1.dirty_mask = dirty05.dirty_mask ∧
    (_timer_tick tickWriteFail dirty05).1.fdOpen = false ∧
    (_timer_tick tickWriteFail dirty05).1.errors = dirty05.errors + 1 ∧
    (_timer_tick tickWriteFail dirty05).1.buffer = dirty05.buffer ∧
    (_timer_tick tickWriteFail dirty05).2.wrote = none :=
  c7_write_failure tickWriteFail dirty05 (by decide) (by decide) (by decide)
    (by decide) (by decide) (by decide)

/-- Sync/clear relationship of the flush body: `fsync` is invoked exactly
when the line-run write succeeded in full and left the mask all-clear. -/
theorem tick_opened_sync_iff (env : TickEnv) (s : StorageState)
    (hmask : s.dirty_mask ≠ 0) (hlt : s.dirty_mask < 2 ^ 32) :
    ((_timer_tick_opened env s).2.synced = true ↔
      ((_timer_tick_opened env s).2.wrote ≠ none ∧
        (_timer_tick_opened env s).1.dirty_mask = 0)) := by
  obtain ⟨hn1, hncap, hn32, hwmbits, hmaskbits⟩ := run_of_tick hmask hlt
  have hi : ffsOf s.dirty_mask < PX4_STORAGE_NUM_LINES := findFirstSet_lt_32 hmask hlt
  have hbi : (runOf s.dirty_mask).2.testBit (ffsOf s.dirty_mask) = true :=
    (hwmbits (ffsOf s.dirty_mask)).mpr (by omega)
  have hnz := restore_ne_zero s.dirty_mask (runOf s.dirty_mask).2 (ffsOf s.dirty_mask) hbi
  simp only [_timer_tick_opened]
  rw [if_neg (by omega : ¬ ffsOf s.dirty_mask = PX4_STORAGE_NUM_LINES)]
  by_cases hseek : env.seekOk = true
  · rw [if_pos hseek]
    by_cases hwr : env.writeOk = true
    · simp only [hwr, if_true]
      by_cases hz : (s.dirty_mask &&& (UINT32_MASK ^^^ (runOf s.dirty_mask).2)) = 0
      · rw [if_pos hz]
        by_cases hf : env.fsyncOk = true
        · rw [if_pos hf]; simp [hz]
        · rw [if_neg hf]; simp [hz]
      · rw [if_neg hz]; simp [hz]
    · rw [if_neg hwr, if_neg hwr]
      rw [if_neg hnz]
      simp
  · rw [if_neg hseek]
    simp

/-- C8: a durability sync happens in a `_timer_tick` invocation exactly
when that invocation's fully successful line-run write left the dirty
mask all-clear; it never happens after a partial flush success that
leaves a bit set, and never in an invocation that wrote nothing (in
particular not when the mask was already clear on entry). -/
theorem c8_sync_exactly_on_clear (env : TickEnv) (s : StorageState)
    (hlt : s.dirty_mask < 2 ^ 32) :
    ((_timer_tick env s).2.synced = true ↔
      ((_timer_tick env s).2.wrote ≠ none ∧
        (_timer_tick env s).1.dirty_mask = 0)) := by
  by_cases hg : s.initialised = false ∨ s.dirty_mask = 0
  · simp [_timer_tick, hg]
  · push_neg at hg
    obtain ⟨hinit, hmask⟩ := hg
    have hinit2 : s.initialised = true := by
      cases h : s.initialised
      · exact absurd h hinit
      · rfl
    by_cases hfd : s.fdOpen = true
    · rw [timer_tick_eq_opened env s hinit2 hmask hfd]
      exact tick_opened_sync_iff env s hmask hlt
    · have hfd2 : s.fdOpen = false := by
        cases h : s.fdOpen
        · rfl
        · exact absurd h hfd
      by_cases hopen : env.openOk = true
      · have hstep : _timer_tick env s = _timer_tick_opened env { s with fdOpen := true } := by
          simp [_timer_tick, hinit2, hmask, hfd2, hopen]
        rw [hstep]
        exact tick_opened_sync_iff env { s with fdOpen := true } hmask hlt
      · have hstep : _timer_tick env s =
            ({ s with errors := s.errors + 1 }, ⟨none, false⟩) := by
          simp [_timer_tick, hinit2, hmask, hfd2, hopen]
        rw [hstep]
        simp

/-- C8 witness: concrete invocations of `c8_sync_exactly_on_clear` — one
fully clearing flush (lines 1 and 2 dirty, everything succeeding) and one
partial flush (lines 0 and 5 dirty, where only line 0 is written). -/
theorem c8_sync_exactly_on_clear_witness :
    ((_timer_tick tickAllOk dirty12).2.synced = true ↔
      ((_timer_tick tickAllOk dirty12).2.wrote ≠ none ∧
        (_timer_tick tickAllOk dirty12).1.dirty_mask = 0)) ∧
    ((_timer_tick tickAllOk dirty05).2.synced = true ↔
      ((_timer_tick tickAllOk dirty05).2.wrote ≠ none ∧
        (_timer_tick tickAllOk dirty05).1.dirty_mask = 0)) :=
  ⟨c8_sync_exactly_on_clear tickAllOk dirty12 (by decide),
   c8_sync_exactly_on_clear tickAllOk dirty05 (by decide)⟩

/-- C6: a flush invocation on an initialised, dirty state with the
descriptor open selects the lowest-indexed set bit `i` of the mask,
extends a contiguous run of set bits from `i` whose length is capped by
the per-invocation byte cap, writes (when the write happens) exactly that
run — at most `PX4_STORAGE_MAX_WRITE` bytes — and every dirty line
outside the run is still marked dirty afterwards. -/
theorem c6_flush_run (env : TickEnv) (s : StorageState)
    (hinit : s.initialised = true) (hmask : s.dirty_mask ≠ 0)
    (hlt : s.dirty_mask < 2 ^ 32) (hfd : s.fdOpen = true) :
    (ffsOf s.dirty_mask < PX4_STORAGE_NUM_LINES ∧
      s.dirty_mask.testBit (ffsOf s.dirty_mask) = true ∧
      (∀ j, j < ffsOf s.dirty_mask → s.dirty_mask.testBit j = false)) ∧
    (1 ≤ (runOf s.dirty_mask).1 ∧
      (∀ k, (runOf s.dirty_mask).2.testBit k = true ↔
        (ffsOf s.dirty_mask ≤ k ∧ k < ffsOf s.dirty_mask + (runOf s.dirty_mask).1)) ∧
      (∀ k, ffsOf s.dirty_mask ≤ k → k < ffsOf s.dirty_mask + (runOf s.dirty_mask).1 →
        s.dirty_mask.testBit k = true)) ∧
    (∀ off cnt, (_timer_tick env s).2.wrote = some (off, cnt) →
      off = ffsOf s.dirty_mask <<< PX4_STORAGE_LINE_SHIFT ∧
      cnt = (runOf s.dirty_mask).1 <<< PX4_STORAGE_LINE_SHIFT ∧
      cnt ≤ PX4_STORAGE_MAX_WRITE) ∧
    (∀ j, s.dirty_mask.testBit j = true →
      ¬(ffsOf s.dirty_mask ≤ j ∧ j < ffsOf s.dirty_mask + (runOf s.dirty_mask).1) →
      (_timer_tick env s).1.dirty_mask.testBit j = true) := by
  obtain ⟨hn1, hncap, hn32, hwmbits, hmaskbits⟩ := run_of_tick hmask hlt
  have hi : ffsOf s.dirty_mask < PX4_STORAGE_NUM_LINES := findFirstSet_lt_32 hmask hlt
  have hbit : s.dirty_mask.testBit (ffsOf s.dirty_mask) = true :=
    hmaskbits (ffsOf s.dirty_mask) (le_refl _) (by omega)
  have hmin : ∀ j, j < ffsOf s.dirty_mask → s.dirty_mask.testBit j = false :=
    fun j hj => findFirstSet_min s.dirty_mask PX4_STORAGE_NUM_LINES 0 j (Nat.zero_le j) hj
  have hbi : (runOf s.dirty_mask).2.testBit (ffsOf s.dirty_mask) = true :=
    (hwmbits (ffsOf s.dirty_mask)).mpr (by omega)
  have hnz := restore_ne_zero s.dirty_mask (runOf s.dirty_mask).2 (ffsOf s.dirty_mask) hbi
  have hrestore :
      ((s.dirty_mask &&& (UINT32_MASK ^^^ (runOf s.dirty_mask).2)) |||
        (runOf s.dirty_mask).2) = s.dirty_mask :=
    clear_then_restore s.dirty_mask (runOf s.dirty_mask).2 hlt
      (fun k hk => hmaskbits k ((hwmbits k).mp hk).1 ((hwmbits k).mp hk).2)
  have hkeep : ∀ j, s.dirty_mask.testBit j = true →
      ¬(ffsOf s.dirty_mask ≤ j ∧ j < ffsOf s.dirty_mask + (runOf s.dirty_mask).1) →
      (s.dirty_mask &&& (UINT32_MASK ^^^ (runOf s.dirty_mask).2)).testBit j = true := by
    intro j hj hout
    rw [testBit_clear _ _ hlt]
    have hwj : (runOf s.dirty_mask).2.testBit j = false := by
      rw [← Bool.not_eq_true]
      intro hb
      exact hout ((hwmbits j).mp hb)
    rw [hj, hwj]
    rfl
  have hcap4 : (runOf s.dirty_mask).1 ≤ 4 := by
    have h512 : PX4_STORAGE_MAX_WRITE >>> PX4_STORAGE_LINE_SHIFT = 4 := by decide
    rw [h512] at hncap
    exact hncap
  refine ⟨⟨hi, hbit, hmin⟩, ⟨hn1, hwmbits, hmaskbits⟩, ?_⟩
  rw [timer_tick_eq_opened env s hinit hmask hfd]
  simp only [_timer_tick_opened]
  rw [if_neg (by omega : ¬ ffsOf s.dirty_mask = PX4_STORAGE_NUM_LINES)]
  by_cases hseek : env.seekOk = true
  · rw [if_pos hseek]
    by_cases hwr : env.writeOk = true
    · simp only [hwr, if_true]
      split_ifs with hz hf <;>
      · refine ⟨?_, ?_⟩
        · intro off cnt h
          simp only [Option.some.injEq, Prod.mk.injEq] at h
          refine ⟨h.1.symm, h.2.symm, ?_⟩
          rw [← h.2, Nat.shiftLeft_eq]
          simp only [PX4_STORAGE_LINE_SHIFT, PX4_STORAGE_MAX_WRITE]
          omega
        · intro j hj hout
          exact hkeep j hj hout
    · rw [if_neg hwr, if_neg hwr]
      rw [if_neg hnz]
      refine ⟨?_, ?_⟩
      · intro off cnt h
        simp at h
      · intro j hj hout
        show ((s.dirty_mask &&& (UINT32_MASK ^^^ (runOf s.dirty_mask).2)) |||
          (runOf s.dirty_mask).2).testBit j = true
        rw [hrestore]
        exact hj
  · rw [if_neg hseek]
    refine ⟨?_, ?_⟩
    · intro off cnt h
      simp at h
    · intro j hj hout
      exact hj

/-- C6 witness: concrete invocation of `c6_flush_run` on the state with
six contiguous dirty lines, where the cap limits the run to four lines. -/
theorem c6_flush_run_witness :
    (ffsOf dirty0to5.dirty_mask < PX4_STORAGE_NUM_LINES ∧
      dirty0to5.dirty_mask.testBit (ffsOf dirty0to5.dirty_mask) = true ∧
      (∀ j, j < ffsOf dirty0to5.dirty_mask → dirty0to5.dirty_mask.testBit j = false)) ∧
    (1 ≤ (runOf dirty0to5.dirty_mask).1 ∧
      (∀ k, (runOf dirty0to5.dirty_mask).2.testBit k = true ↔
        (ffsOf dirty0to5.dirty_mask ≤ k ∧
          k < ffsOf dirty0to5.dirty_mask + (runOf dirty0to5.dirty_mask).1)) ∧
      (∀ k, ffsOf dirty0to5.dirty_mask ≤ k →
        k < ffsOf dirty0to5.dirty_mask + (runOf dirty0to5.dirty_mask).1 →
        dirty0to5.dirty_mask.testBit k = true)) ∧
    (∀ off cnt, (_timer_tick tickAllOk dirty0to5).2.wrote = some (off, cnt) →
      off = ffsOf dirty0to5.dirty_mask <<< PX4_STORAGE_LINE_SHIFT ∧
      cnt = (runOf dirty0to5.dirty_mask).1 <<< PX4_STORAGE_LINE_SHIFT ∧
      cnt ≤ PX4_STORAGE_MAX_WRITE) ∧
    (∀ j, dirty0to5.dirty_mask.testBit j = true →
      ¬(ffsOf dirty0to5.dirty_mask ≤ j ∧
        j < ffsOf dirty0to5.dirty_mask + (runOf dirty0to5.dirty_mask).1) →
      (_timer_tick tickAllOk dirty0to5).1.dirty_mask.testBit j = true) :=
  c6_flush_run tickAllOk dirty0to5 (by decide) (by decide) (by decide) (by decide)

theorem sizeT_sub_one (n : Nat) (h1 : 1 ≤ n) (h2 : n ≤ 4097) :
    sizeT_sub n 1 = n - 1 := by
  unfold sizeT_sub SIZE_T_MOD
  have h3 : (1 : Nat) % 2 ^ 64 = 1 := by norm_num
  rw [h3]
  have h4 : n + 2 ^ 64 - 1 = (n - 1) + 2 ^ 64 := by omega
  rw [h4, Nat.add_mod_right, Nat.mod_eq_of_lt (by omega)]

/-- Value of the `size_t` guard bound `sizeof(_buffer)-(n-1)` for the
access sizes that do not wrap it past the region (`n ≤ 4097`). -/
theorem sizeT_guard (n : Nat) (h2 : n ≤ 4097) :
    sizeT_sub PX4_STORAGE_SIZE (sizeT_sub n 1) = 4097 - n := by
  rcases Nat.eq_zero_or_pos n with h0 | h1
  · subst h0; decide
  · rw [sizeT_sub_one n h1 h2]
    unfold sizeT_sub SIZE_T_MOD PX4_STORAGE_SIZE
    have hm : (n - 1) % 2 ^ 64 = n - 1 := Nat.mod_eq_of_lt (by omega)
    rw [hm]
    have h4 : 4096 + 2 ^ 64 - (n - 1) = (4097 - n) + 2 ^ 64 := by omega
    rw [h4, Nat.add_mod_right, Nat.mod_eq_of_lt (by omega)]

/-- C3 (amended): for every read whose `loc` plus access size exceeds the
region size (with a block length that does not wrap the `size_t` guard),
the scalar reads return 0 and `read_block` returns with the destination
buffer untouched; the state is unchanged and nothing fails loudly. -/
theorem c3_out_of_range_reads :
    (∀ env s loc, PX4_STORAGE_SIZE < loc + 1 →
      read_byte env s loc = (s, noEffects, 0)) ∧
    (∀ env s loc, PX4_STORAGE_SIZE < loc + 2 →
      read_word env s loc = (s, noEffects, 0)) ∧
    (∀ env s loc, PX4_STORAGE_SIZE < loc + 4 →
      read_dword env s loc = (s, noEffects, 0)) ∧
    (∀ env s (dst : List Nat) loc n, n ≤ PX4_STORAGE_SIZE + 1 →
      PX4_STORAGE_SIZE < loc + n →
      read_block env s dst loc n = (s, noEffects, dst)) := by
  refine ⟨?_, ?_, ?_, ?_⟩
  · intro env s loc h
    rw [read_byte, if_pos (by omega)]
  · intro env s loc h
    rw [read_word, if_pos (by omega)]
  · intro env s loc h
    rw [read_dword, if_pos (by omega)]
  · intro env s dst loc n hn h
    simp only [PX4_STORAGE_SIZE] at hn h
    rw [read_block, if_pos ?_]
    rw [sizeT_guard n (by omega)]
    omega

/-- C3 counterexample: an out-of-range `read_block` does not zero-fill
the destination — it returns with the destination bytes untouched, here
still `[5]` rather than `[0]`. -/
theorem c3_counterexample :
    PX4_STORAGE_SIZE < 4096 + 1 ∧
    (read_block trivOpenEnv PX4Storage_init [5] 4096 1).2.2 = [5] ∧
    (read_block trivOpenEnv PX4Storage_init [5] 4096 1).2.2 ≠ [0] := by
  decide

/-- C3 witness: concrete invocations of `c3_out_of_range_reads` at the
first out-of-range location of each access width. -/
theorem c3_out_of_range_reads_witness :
    read_byte trivOpenEnv initialisedZero 4096 = (initialisedZero, noEffects, 0) ∧
    read_word trivOpenEnv initialisedZero 4095 = (initialisedZero, noEffects, 0) ∧
    read_dword trivOpenEnv initialisedZero 4093 = (initialisedZero, noEffects, 0) ∧
    read_block trivOpenEnv initialisedZero [5] 4090 10 =
      (initialisedZero, noEffects, [5]) :=
  ⟨c3_out_of_range_reads.1 trivOpenEnv initialisedZero 4096 (by decide),
   c3_out_of_range_reads.2.1 trivOpenEnv initialisedZero 4095 (by decide),
   c3_out_of_range_reads.2.2.1 trivOpenEnv initialisedZero 4093 (by decide),
   c3_out_of_range_reads.2.2.2 trivOpenEnv initialisedZero [5] 4090 10 (by decide)
     (by decide)⟩

/-- C5 (amended): for every write whose `loc` plus access size exceeds
the region size — with a block length that does not wrap the `size_t`
guard (`len ≤ region size + 1`) — the call returns immediately with the
buffer, the dirty mask, and all other state completely unchanged. -/
theorem c5_out_of_range_writes :
    (∀ env s loc v, PX4_STORAGE_SIZE < loc + 1 →
      write_byte env s loc v = (s, noEffects)) ∧
    (∀ env s loc v, PX4_STORAGE_SIZE < loc + 2 →
      write_word env s loc v = (s, noEffects)) ∧
    (∀ env s loc v, PX4_STORAGE_SIZE < loc + 4 →
      write_dword env s loc v = (s, noEffects)) ∧
    (∀ env s loc (src : List Nat), src.length ≤ PX4_STORAGE_SIZE + 1 →
      PX4_STORAGE_SIZE < loc + src.length →
      write_block env s loc src = (s, noEffects)) := by
  refine ⟨?_, ?_, ?_, ?_⟩
  · intro env s loc v h
    rw [write_byte, if_pos (by omega)]
  · intro env s loc v h
    rw [write_word, if_pos (by omega)]
  · intro env s loc v h
    rw [write_dword, if_pos (by omega)]
  · intro env s loc src hn h
    simp only [PX4_STORAGE_SIZE] at hn h
    rw [write_block, if_pos ?_]
    rw [sizeT_guard src.length (by omega)]
    omega

/-- Value of a buffer byte inside the copied range after a `write_block`
whose guard did not trigger and whose compare found a difference, on an
initialised state. -/
theorem write_block_buffer_hit (env : OpenEnv) (s : StorageState) (loc : Nat)
    (src : List Nat) (a : Nat)
    (hguard : ¬ loc ≥ sizeT_sub PX4_STORAGE_SIZE (sizeT_sub src.length 1))
    (hne : memcmpNe src s.buffer loc = true)
    (hinit : s.initialised = true)
    (ha : loc ≤ a ∧ a < loc + src.length) :
    (write_block env s loc src).1.buffer a = src.getD (a - loc) 0 := by
  have hopen : _storage_open env s = (s, noEffects) := by
    rw [_storage_open, if_pos hinit]
  rw [write_block, if_neg hguard, if_pos hne, hopen]
  rw [if_neg (show ¬ ((s, noEffects).2.panicked = true) by simp [noEffects])]
  show memcpyBuf s.buffer loc src a = src.getD (a - loc) 0
  rw [memcpyBuf, if_pos ha]

/-- C5 counterexample: a `write_block` of 4098 bytes at `loc = 0` is
out of range (`0 + 4098 > 4096`), yet the `size_t` guard
`loc >= sizeof(_buffer)-(n-1)` wraps around and fails to trigger, so the
write proceeds and mutates the region buffer (byte 0 becomes 1). -/
theorem c5_counterexample :
    PX4_STORAGE_SIZE < 0 + (List.replicate 4098 (1 : Nat)).length ∧
    initialisedZero.buffer 0 = 0 ∧
    (write_block trivOpenEnv initialisedZero 0 (List.replicate 4098 (1 : Nat))).1.buffer 0
      = 1 := by
  refine ⟨by rw [List.length_replicate]; decide, rfl, ?_⟩
  rw [write_block_buffer_hit trivOpenEnv initialisedZero 0 (List.replicate 4098 (1 : Nat)) 0
    (by rw [List.length_replicate]; decide)
    (by
      rw [memcmpNe, List.any_eq_true]
      refine ⟨0, ?_, rfl⟩
      rw [List.length_replicate]
      exact List.mem_range.mpr (by norm_num))
    rfl
    (by rw [List.length_replicate]; omega)]
  rfl

/-- C5 witness: concrete invocations of `c5_out_of_range_writes` at the
first out-of-range location of each access width. -/
theorem c5_out_of_range_writes_witness :
    write_byte trivOpenEnv initialisedZero 4096 7 = (initialisedZero, noEffects) ∧
    write_word trivOpenEnv initialisedZero 4095 7 = (initialisedZero, noEffects) ∧
    write_dword trivOpenEnv initialisedZero 4093 7 = (initialisedZero, noEffects) ∧
    write_block trivOpenEnv initialisedZero 4090 (List.replicate 10 3) =
      (initialisedZero, noEffects) :=
  ⟨c5_out_of_range_writes.1 trivOpenEnv initialisedZero 4096 7 (by decide),
   c5_out_of_range_writes.2.1 trivOpenEnv initialisedZero 4095 7 (by decide),
   c5_out_of_range_writes.2.2.1 trivOpenEnv initialisedZero 4093 7 (by decide),
   c5_out_of_range_writes.2.2.2 trivOpenEnv initialisedZero 4090 (List.replicate 10 3)
     (by decide) (by decide)⟩

theorem any_false_forall {l : List Nat} {p : Nat → Bool} (h : l.any p = false) :
    ∀ x ∈ l, p x = false := by
  intro x hx
  cases hp : p x
  · rfl
  · exact absurd (List.any_eq_true.mpr ⟨x, hx, hp⟩) (by simp [h])

theorem map_range_eq_of_getD (n : Nat) (f : Nat → Nat) (data : List Nat)
    (hn : data.length = n) (h : ∀ k, k < n → f k = data.getD k 0) :
    (List.range n).map f = data := by
  apply List.ext_get
  · simp [hn]
  · intro i h1 h2
    have hi : i < n := by simpa using h1
    rw [List.get_map, List.get_range]
    rw [h i hi, List.getD_eq_get data 0 (by omega)]

/-- Bytes delivered by an in-guard `read_block` on an initialised state:
the `n` region bytes at `loc`, followed by the untouched tail of the
destination buffer. -/
theorem read_block_bytes (env : OpenEnv) (s : StorageState) (dst : List Nat) (loc n : Nat)
    (hguard : ¬ loc ≥ sizeT_sub PX4_STORAGE_SIZE (sizeT_sub n 1))
    (hinit : s.initialised = true) :
    (read_block env s dst loc n).2.2 =
      (List.range n).map (fun k => s.buffer (loc + k)) ++ dst.drop n := by
  have hopen : _storage_open env s = (s, noEffects) := by
    rw [_storage_open, if_pos hinit]
  rw [read_block, if_neg hguard, hopen]

/-- After an in-guard `write_block` on an initialised state, the state is
still initialised and the buffer bytes of the written range equal the
source bytes (whether or not the compare found a difference). -/
theorem write_block_in_range (env : OpenEnv) (s : StorageState) (loc : Nat) (src : List Nat)
    (hguard : ¬ loc ≥ sizeT_sub PX4_STORAGE_SIZE (sizeT_sub src.length 1))
    (hinit : s.initialised = true) :
    (write_block env s loc src).1.initialised = true ∧
    ∀ a, loc ≤ a → a < loc + src.length →
      (write_block env s loc src).1.buffer a = src.getD (a - loc) 0 := by
  by_cases hne : memcmpNe src s.buffer loc = true
  · constructor
    · have hopen : _storage_open env s = (s, noEffects) := by
        rw [_storage_open, if_pos hinit]
      rw [write_block, if_neg hguard, if_pos hne, hopen]
      rw [if_neg (show ¬ ((s, noEffects).2.panicked = true) by simp [noEffects])]
      exact hinit
    · intro a h1 h2
      exact write_block_buffer_hit env s loc src a hguard hne hinit ⟨h1, h2⟩
  · have hne2 : memcmpNe src s.buffer loc = false := by
      cases h : memcmpNe src s.buffer loc
      · rfl
      · exact absurd h hne
    have heq : write_block env s loc src = (s, noEffects) := by
      rw [write_block, if_neg hguard, if_neg hne]
    rw [heq]
    refine ⟨hinit, ?_⟩
    intro a h1 h2
    rw [memcmpNe] at hne2
    have hpt := any_false_forall hne2 (a - loc) (List.mem_range.mpr (by omega))
    have hx : loc + (a - loc) = a := by omega
    rw [hx] at hpt
    have : src.getD (a - loc) 0 = s.buffer a := by simpa using hpt
    exact this.symm

/-- C9 (amended): on an initialised state, for every in-range
`(loc, len)`, `write_block(loc, data, len)` followed by
`read_block(loc, len)` into a destination of size `len` returns exactly
the bytes `data`. -/
theorem c9_write_then_read (env : OpenEnv) (s : StorageState) (loc : Nat)
    (data dst : List Nat) (hinit : s.initialised = true)
    (hlen : dst.length = data.length)
    (hrange : loc + data.length ≤ PX4_STORAGE_SIZE) :
    (read_block env (write_block env s loc data).1 dst loc data.length).2.2 = data := by
  have hrange2 : loc + data.length ≤ 4096 := by
    simpa [PX4_STORAGE_SIZE] using hrange
  have hguard : ¬ loc ≥ sizeT_sub PX4_STORAGE_SIZE (sizeT_sub data.length 1) := by
    rw [sizeT_guard data.length (by omega)]
    omega
  obtain ⟨hinitw, hbytes⟩ := write_block_in_range env s loc data hguard hinit
  rw [read_block_bytes env _ dst loc data.length hguard hinitw]
  rw [← hlen, List.drop_length, List.append_nil]
  rw [hlen]
  apply map_range_eq_of_getD
  · rfl
  · intro k hk
    rw [hbytes (loc + k) (by omega) (by omega), Nat.add_sub_cancel_left]

/-- C9 counterexample: on the zero-initialised singleton before the lazy
open has ever run, writing a byte equal to the startup buffer content
skips the open entirely, and the subsequent read triggers the open and
returns the byte loaded from the MTD device (7), not the written data
(0) — the round trip fails on the not-yet-initialised state. -/
theorem c9_counterexample :
    PX4Storage_init.initialised = false ∧
    0 + (1 : Nat) ≤ PX4_STORAGE_SIZE ∧
    (read_block okOpenEnv (write_block okOpenEnv PX4Storage_init 0 [0]).1 [9] 0 1).2.2
      = [7] ∧
    ([7] : List Nat) ≠ [0] := by
  decide

/-- C9 witness: concrete invocation of `c9_write_then_read` writing the
bytes `[1, 2]` at location 0 of an initialised state. -/
theorem c9_write_then_read_witness :
    (read_block trivOpenEnv (write_block trivOpenEnv initialisedZero 0 [1, 2]).1
      [9, 9] 0 (List.length [1, 2])).2.2 = [1, 2] :=
  c9_write_then_read trivOpenEnv initialisedZero 0 [1, 2] [9, 9] (by decide) (by decide)
    (by decide)

/-- C4 counterexample: on the fresh, never-opened singleton, a first
accessor call with an out-of-range location (`read_byte 4096`) and a
first write of a value equal to the startup buffer content
(`write_byte 0 0`) both return without running Lifecycle/Open — the
initialised flag is still clear afterwards — refuting the claim that
Open runs on the first accessor call of any kind regardless of its
arguments. -/
theorem c4_counterexample :
    PX4Storage_init.initialised = false ∧
    (read_byte trivOpenEnv PX4Storage_init 4096).1.initialised = false ∧
    (write_byte trivOpenEnv PX4Storage_init 0 0).1.initialised = false := by
  decide

/-- C4 (amended): the lazy open is guarded by the initialised flag — on
an initialised state `_storage_open` returns immediately with no effect;
and the first accessor call that reaches the open step (an in-range read,
or an in-range write whose value differs from the buffered bytes) runs
Open to completion, setting the flag, provided the backing environment is
healthy (MTD present, good signature, no legacy file, full-region read
succeeding). -/
theorem c4_open_once (env : OpenEnv) (s : StorageState) (loc v : Nat)
    (hmtd : env.mtdExists = true) (hso : env.sigOpenOk = true)
    (hss : env.sigSeekOk = true) (hsr : env.sigReadOk = true)
    (hsig : env.mtdSig = MTD_SIGNATURE) (hold : env.oldExists = false)
    (hfo : env.finalOpenOk = true) (hfl : env.finalReadLen = PX4_STORAGE_SIZE) :
    (∀ s2 : StorageState, s2.initialised = true → _storage_open env s2 = (s2, noEffects)) ∧
    (s.initialised = false → loc < PX4_STORAGE_SIZE →
      (read_byte env s loc).1.initialised = true) ∧
    (s.initialised = false → loc < PX4_STORAGE_SIZE → s.buffer loc ≠ v % 256 →
      (write_byte env s loc v).1.initialised = true) := by
  have hopenrun : ∀ s2 : StorageState, s2.initialised = false →
      (_storage_open env s2).1.initialised = true ∧
      (_storage_open env s2).2.panicked = false := by
    intro s2 h2
    simp [_storage_open, h2, hmtd, hso, hss, hsr, hsig, hold, hfo, hfl, noEffects]
  refine ⟨?_, ?_, ?_⟩
  · intro s2 h2
    rw [_storage_open, if_pos h2]
  · intro hinit hloc
    rw [read_byte]
    rw [if_neg (by simp only [PX4_STORAGE_SIZE] at hloc ⊢; omega)]
    exact (hopenrun s hinit).1
  · intro hinit hloc hdiff
    rw [write_byte]
    rw [if_neg (by simp only [PX4_STORAGE_SIZE] at hloc ⊢; omega)]
    rw [if_pos hdiff]
    rw [if_neg (by simp [(hopenrun s hinit).2])]
    exact (hopenrun s hinit).1

/-- C4 witness: concrete invocation of `c4_open_once` — the guard returns
an initialised state untouched, a first in-range read sets the flag, and
a first differing in-range write sets the flag. -/
theorem c4_open_once_witness :
    (∀ s2 : StorageState, s2.initialised = true →
      _storage_open okOpenEnv s2 = (s2, noEffects)) ∧
    (PX4Storage_init.initialised = false → 0 < PX4_STORAGE_SIZE →
      (read_byte okOpenEnv PX4Storage_init 0).1.initialised = true) ∧
    (PX4Storage_init.initialised = false → 0 < PX4_STORAGE_SIZE →
      PX4Storage_init.buffer 0 ≠ 3 % 256 →
      (write_byte okOpenEnv PX4Storage_init 0 3).1.initialised = true) :=
  c4_open_once okOpenEnv PX4Storage_init 0 3 (by decide) (by decide) (by decide)
    (by decide) (by decide) (by decide) (by decide) (by decide)

/-- C1 (amended): during Open with a wrong backing signature and an
existing legacy store whose full read does not return exactly region-size
bytes, the migration copy is abandoned for this boot with a diagnostic
only (nothing written to the MTD by the upgrade, no panic, boot
continues to an initialised state) — but the signature IS then written to
the backing medium, so migration is NOT retried on the next boot. -/
theorem c1_abandoned_migration (env : OpenEnv) (s : StorageState)
    (hinit : s.initialised = false) (hmtd : env.mtdExists = true)
    (hso : env.sigOpenOk = true) (hss : env.sigSeekOk = true) (hsr : env.sigReadOk = true)
    (hsig : env.mtdSig ≠ MTD_SIGNATURE) (hold : env.oldExists = true)
    (holdopen : env.oldOpenOk = true) (hmtdw : env.mtdWOpenOk = true)
    (hshort : env.oldReadLen ≠ PX4_STORAGE_SIZE)
    (hwo : env.sigWOpenOk = true) (hws : env.sigWSeekOk = true) (hwr : env.sigWriteOk = true)
    (hfo : env.finalOpenOk = true) (hfl : env.finalReadLen = PX4_STORAGE_SIZE) :
    (_storage_open env s).2.upgradeWritten = false ∧
    (_storage_open env s).2.diagOldReadFail = true ∧
    (_storage_open env s).2.panicked = false ∧
    (_storage_open env s).2.sigWritten = true ∧
    (_storage_open env s).1.initialised = true := by
  simp [_storage_open, _upgrade_to_mtd, hinit, hmtd, hso, hss, hsr, hsig, hold,
    holdopen, hmtdw, hshort, hwo, hws, hwr, hfo, hfl, noEffects]

/-- C1 counterexample: with a wrong signature, an existing legacy store,
and a short legacy read, `_storage_open` abandons the upgrade but still
writes the signature into the backing medium — the claim that the
signature is left unwritten (so migration is retried next boot) is false
on this input. -/
theorem c1_counterexample :
    shortLegacyEnv.mtdSig ≠ MTD_SIGNATURE ∧
    shortLegacyEnv.oldExists = true ∧
    shortLegacyEnv.oldReadLen ≠ PX4_STORAGE_SIZE ∧
    (_storage_open shortLegacyEnv PX4Storage_init).2.upgradeWritten = false ∧
    (_storage_open shortLegacyEnv PX4Storage_init).2.diagOldReadFail = true ∧
    (_storage_open shortLegacyEnv PX4Storage_init).2.sigWritten = true := by
  decide

/-- C1 witness: concrete invocation of `c1_abandoned_migration` on the
short-legacy-read environment. -/
theorem c1_abandoned_migration_witness :
    (_storage_open shortLegacyEnv PX4Storage_init).2.upgradeWritten = false ∧
    (_storage_open shortLegacyEnv PX4Storage_init).2.diagOldReadFail = true ∧
    (_storage_open shortLegacyEnv PX4Storage_init).2.panicked = false ∧
    (_storage_open shortLegacyEnv PX4Storage_init).2.sigWritten = true ∧
    (_storage_open shortLegacyEnv PX4Storage_init).1.initialised = true :=
  c1_abandoned_migration shortLegacyEnv PX4Storage_init (by decide) (by decide)
    (by decide) (by decide) (by decide) (by decide) (by decide) (by decide)
    (by decide) (by decide) (by decide) (by decide) (by decide) (by decide) (by decide)

/-- C2: evaluation of the code at the failing input. The in-range call
`_mark_dirty(127, 2)` covers bytes 127 and 128, which lie in lines 0 and
1 respectively (`127 >> 7 = 0`, `128 >> 7 = 1`), yet the resulting mask
is 1: only line 0's bit is set and line 1's bit is not — the loop
advances `loc` by a whole line from the unaligned start and overshoots
the end before marking the second line.  The same happens through the
public path: `write_word(127, 0x0101)` on an initialised all-zero region
leaves the dirty mask at 1. -/
theorem c2_mark_dirty_missed_line :
    ((127 : Nat) >>> PX4_STORAGE_LINE_SHIFT = 0) ∧
    ((128 : Nat) >>> PX4_STORAGE_LINE_SHIFT = 1) ∧
    (127 ≤ 128 ∧ 128 < 127 + 2) ∧
    _mark_dirty 0 127 2 = 1 ∧
    Nat.testBit (_mark_dirty 0 127 2) 1 = false ∧
    (write_word trivOpenEnv initialisedZero 127 257).1.dirty_mask = 1 := by
  decide
